import Mathlib

/-!
Shallow embedding of the hello-world-mcp-server repository (Cloudflare Worker
variants exposing sendEmail and generateImage MCP tools), together with
theorems checking the specification claims against the embedded code.

The embedding models JS strings as Lean strings over their character lists;
JS string operations (trim, toLowerCase, includes, split-based checks, the
falsy coalescing idiom a || b) are defined below from their JS semantics.
Response bodies built with JSON.stringify are modelled structurally by the
Body inductive rather than as serialized text.
-/

namespace S2P

/-- Model of JS String.prototype.trim on the character list of a string:
drop whitespace from the front, then from the back (List.rdropWhile). -/
def trimChars (l : List Char) : List Char :=
  List.rdropWhile Char.isWhitespace (List.dropWhile Char.isWhitespace l)

/-- Model of JS String.prototype.trim. -/
def jsTrim (s : String) : String :=
  String.mk (trimChars s.data)

/-- Model of the JS falsy-coalescing idiom for an optional string:
undefined and the empty string both fall through to the default. -/
def jsOrOpt (o : Option String) (d : String) : String :=
  match o with
  | none => d
  | some s => if s = "" then d else s

/-- Model of the JS falsy-coalescing idiom on a string value. -/
def jsOrStr (s d : String) : String :=
  if s = "" then d else s

/-- Model of JS Math.min on integers. -/
def jsMin (a b : Int) : Int :=
  if a ≤ b then a else b

/-- Model of JS Math.max on integers. -/
def jsMax (a b : Int) : Int :=
  if a ≤ b then b else a

/-- Whether the first list is a leading segment of the second. -/
def leadsList (sub l : List Char) : Bool :=
  match sub, l with
  | [], _ => true
  | _ :: _, [] => false
  | a :: as, b :: bs => a == b && leadsList as bs

/-- Whether sub occurs contiguously somewhere inside l
(model of JS String.prototype.includes / a fixed-alternative regex test). -/
def containsL (sub : List Char) : List Char → Bool
  | [] => sub.isEmpty
  | a :: t => leadsList sub (a :: t) || containsL sub t

/-- Model of JS String.prototype.includes. -/
def containsStr (s sub : String) : Bool :=
  containsL sub.data s.data

/-- Model of JS String.prototype.toLowerCase for the ASCII vocabulary used
by the case-insensitive keyword regexes in the source. -/
def jsToLower (s : String) : String :=
  String.mk (s.data.map Char.toLower)

/-- The prompt occurs somewhere inside the text (Prop form, for
substring-preservation statements). -/
def substringOf (sub s : String) : Prop :=
  ∃ pre suf : List Char, pre ++ sub.data ++ suf = s.data

theorem trimChars_dropWhile (l : List Char) :
    List.dropWhile Char.isWhitespace (trimChars l) = trimChars l := by
  have hA : List.dropWhile Char.isWhitespace
      (List.dropWhile Char.isWhitespace l) = List.dropWhile Char.isWhitespace l :=
    List.dropWhile_idempotent _ _
  rw [List.dropWhile_eq_self_iff] at hA ⊢
  intro hl
  have hpre : trimChars l <+: List.dropWhile Char.isWhitespace l :=
    List.rdropWhile_prefix _ _
  have hlen : 0 < (List.dropWhile Char.isWhitespace l).length :=
    lt_of_lt_of_le hl hpre.length_le
  have hget := hpre.getElem (n := 0) hl
  have hA0 := hA hlen
  simp only [List.get_eq_getElem] at hA0 ⊢
  rw [hget]
  exact hA0

theorem trimChars_idem (l : List Char) : trimChars (trimChars l) = trimChars l := by
  calc trimChars (trimChars l)
      = List.rdropWhile Char.isWhitespace
          (List.dropWhile Char.isWhitespace (trimChars l)) := rfl
    _ = List.rdropWhile Char.isWhitespace (trimChars l) := by rw [trimChars_dropWhile]
    _ = List.rdropWhile Char.isWhitespace
          (List.rdropWhile Char.isWhitespace (List.dropWhile Char.isWhitespace l)) := rfl
    _ = List.rdropWhile Char.isWhitespace (List.dropWhile Char.isWhitespace l) :=
        List.rdropWhile_idempotent _ _
    _ = trimChars l := rfl

theorem jsTrim_idem (s : String) : jsTrim (jsTrim s) = jsTrim s := by
  simp only [jsTrim]
  exact congrArg String.mk (trimChars_idem s.data)

theorem string_data_append (s t : String) : (s ++ t).data = s.data ++ t.data := by
  cases s
  cases t
  rfl

/-! ## Data model shared by the embedded handlers -/

/-- Structured error returned by the Resend email provider
(the error field of resend.emails.send). -/
structure ResendError where
  message : String
deriving DecidableEq

/-- Identifying payload returned by the Resend email provider on success
(the data field of resend.emails.send; only the id is used by the code). -/
structure ResendData where
  id : String
deriving DecidableEq

/-- Outcome of one resend.emails.send call as observed by the caller:
either the await threw an exception, or it returned an object carrying
an optional error and an optional data payload. -/
inductive ProviderOutcome where
  | threw (message : String)
  | returned (error : Option ResendError) (data : Option ResendData)
deriving DecidableEq

/-- One item of the MCP tool response content array. -/
structure ContentItem where
  type : String
  text : String
deriving DecidableEq

/-- The wire-level envelope returned by an MCP tool handler. -/
structure ToolResponseEnvelope where
  content : List ContentItem
deriving DecidableEq

/-- Structured model of a Response body. JSON.stringify bodies are kept
structural: jsonError models JSON.stringify of an object with an error
message and optional details, jsonSuccess models the success-plus-data
object, image carries the base64 payload of a binary image response
(the atob byte conversion is abstracted), text is a plain-text body. -/
inductive Body where
  | text (s : String)
  | jsonError (error : String) (details : Option String)
  | jsonSuccess (dataId : Option String)
  | image (base64 : String)
deriving DecidableEq

/-- Status and body of an HTTP Response (headers are not modelled). -/
structure HttpResponse where
  status : Nat
  body : Body
deriving DecidableEq

/-! ## src/index.ts — MyMCP sendEmail tool handler

The handler validated by zod receives to, subject, body and performs one
resend.emails.send call with the fixed sender noreply@send.glyfo.com; the
three-way check on the provider outcome (error, missing data, data.id) and
the surrounding try/catch are embedded below. The function is total: every
outcome, including a thrown exception, is mapped to an envelope. -/
def sendEmailTool (to_ subject body : String) (outcome : ProviderOutcome) :
    ToolResponseEnvelope :=
  match outcome with
  | .threw m =>
      ⟨[⟨"text", "Error sending email: " ++ m⟩]⟩
  | .returned (some e) _ =>
      ⟨[⟨"text", "Failed to send email: " ++ e.message⟩]⟩
  | .returned none none =>
      ⟨[⟨"text", "Email sent but no ID was returned"⟩]⟩
  | .returned none (some d) =>
      ⟨[⟨"text", "Email sent successfully! Email ID: " ++ d.id⟩]⟩

/-! ## Auth gates

src/index.ts app.mount handler and the app.all sse handler of the variant
with the Durable Object lookup: a missing authorization header yields null
from req.headers.get, an empty header value is falsy, and in both cases the
handler returns 401 before any Session Actor is constructed or resumed. -/

/-- Result of the connection gate: either a rejection response, or the
request is forwarded to the mounted MCP agent carrying the bearer token. -/
inductive GateResult where
  | rejected (status : Nat) (body : String)
  | forwarded (bearerToken : String)
deriving DecidableEq

/-- Result of the sse gate of the Durable Object variant: forwarding also
names the stable Durable Object key used to resolve the Session Actor. -/
inductive SseResult where
  | rejected (status : Nat) (body : String)
  | forwarded (bearerToken : String) (sessionKey : String)
deriving DecidableEq

/-- app.mount handler of src/index.ts: authHeader is
req.headers.get(authorization), null when the header is missing. -/
def mountHandler (authHeader : Option String) : GateResult :=
  match authHeader with
  | none => .rejected 401 "Unauthorized"
  | some h => if h = "" then .rejected 401 "Unauthorized" else .forwarded h

/-- app.all sse handler of the Durable Object variant: same falsy check,
then the actor is resolved from the fixed name mcp-agent-instance. -/
def sseHandler (authHeader : Option String) : SseResult :=
  match authHeader with
  | none => .rejected 401 "Unauthorized"
  | some h =>
      if h = "" then .rejected 401 "Unauthorized"
      else .forwarded h "mcp-agent-instance"

/-! ## ImageEnhancementWorker.sendEmail (the variant with field validation)

Parameters object: to is string or string array, subject/body required by
the type but read defensively with optional chaining, htmlBody and from
optional. The embedding keeps the source order of checks: falsy to, missing
provider key, empty subject, empty array or single-address format, then the
one provider call. The second component of the result records the email
options passed to resend.emails.send (empty when no call was made). -/

/-- Options object passed to resend.emails.send by the validating variant:
text is present only when the trimmed body is non-empty, html only when a
non-empty trimmed htmlBody was given. -/
structure EmailOptions where
  from_ : String
  to_ : String ⊕ List String
  subject : String
  text : Option String
  html : Option String
deriving DecidableEq

/-- Parameters of ImageEnhancementWorker.sendEmail; every field is wrapped
in Option to model absent/undefined members of the params object. -/
structure P1Params where
  to_ : Option (String ⊕ List String)
  subject : Option String
  body : Option String
  htmlBody : Option String
  from_ : Option String

/-- Single-address format check of the source: the address must contain an
at sign, and the split(at)[1] segment (the characters between the first and
the second at sign) must contain a dot. -/
def validEmailFormat (s : String) : Bool :=
  containsStr s "@" &&
    containsL ['.']
      (((s.data.dropWhile (fun c => !(c == '@'))).drop 1).takeWhile
        (fun c => !(c == '@')))

/-- Send stage shared by the branches of the validating variant: build the
options object, perform the one provider call, and map its outcome
(throwing on result.error re-enters the catch, which answers 500). -/
def p1SendStage (from_ : String) (to_ : String ⊕ List String)
    (subject body : String) (htmlBody : Option String)
    (provider : EmailOptions → ProviderOutcome) :
    HttpResponse × List EmailOptions :=
  let emailOptions : EmailOptions :=
    ⟨from_, to_, subject,
      if body = "" then none else some body,
      match htmlBody with
      | some h => if h = "" then none else some h
      | none => none⟩
  match provider emailOptions with
  | .threw m =>
      (⟨500, .jsonError "Email sending failed" (some m)⟩, [emailOptions])
  | .returned (some e) _ =>
      (⟨500, .jsonError "Email sending failed"
          (some (jsOrStr e.message "Unknown Resend error"))⟩, [emailOptions])
  | .returned none d =>
      (⟨200, .jsonSuccess (d.map ResendData.id)⟩, [emailOptions])

/-- ImageEnhancementWorker.sendEmail. hasKey models the presence of the
RESEND_API_KEY binding. -/
def sendEmail_p1 (params : P1Params) (hasKey : Bool)
    (provider : EmailOptions → ProviderOutcome) :
    HttpResponse × List EmailOptions :=
  let subject := jsOrOpt (params.subject.map jsTrim) ""
  let body := jsOrOpt (params.body.map jsTrim) ""
  let htmlBody := params.htmlBody.map jsTrim
  let from_ := jsOrOpt (params.from_.map jsTrim) "hello@example.com"
  match params.to_ with
  | none => (⟨400, .jsonError "Recipient(s) cannot be empty" none⟩, [])
  | some (Sum.inl s) =>
      if s = "" then (⟨400, .jsonError "Recipient(s) cannot be empty" none⟩, [])
      else if hasKey = false then
        (⟨500, .text "Resend API key not configured"⟩, [])
      else if subject = "" then
        (⟨400, .jsonError "Subject cannot be empty" none⟩, [])
      else
        let formattedTo := jsTrim s
        if validEmailFormat formattedTo = false then
          (⟨400, .jsonError "Email sending failed"
              (some "Invalid email format. Email must be in the format: user@domain.com")⟩,
            [])
        else p1SendStage from_ (Sum.inl formattedTo) subject body htmlBody provider
  | some (Sum.inr l) =>
      if hasKey = false then
        (⟨500, .text "Resend API key not configured"⟩, [])
      else if subject = "" then
        (⟨400, .jsonError "Subject cannot be empty" none⟩, [])
      else if l = [] then
        (⟨400, .jsonError "Recipient(s) cannot be empty" none⟩, [])
      else
        let formattedTo := (l.map jsTrim).filter (fun e => !(e == ""))
        p1SendStage from_ (Sum.inr formattedTo) subject body htmlBody provider

/-! ## EmailWorker.sendEmail (the defaulting variant)

All parameters optional; to defaults to a fixed recipient, from to a fixed
sender, subject to the placeholder No Subject, text and html to the empty
string. No trimming or format validation is performed here. -/

/-- Options object passed to resend.emails.send by the defaulting variant. -/
structure EmailOptions4 where
  from_ : String
  to_ : String
  subject : String
  text : String
  html : String
deriving DecidableEq

/-- Parameters of EmailWorker.sendEmail. -/
structure P4Params where
  to_ : Option String
  subject : Option String
  text : Option String
  html : Option String
  from_ : Option String

/-- EmailWorker.sendEmail. The if on the defaulted recipient mirrors the
source even though the default makes it unreachable. -/
def sendEmail_p4 (params : P4Params) (hasKey : Bool)
    (provider : EmailOptions4 → ProviderOutcome) :
    HttpResponse × List EmailOptions4 :=
  if hasKey = false then
    (⟨500, .jsonError "Resend API key not configured" none⟩, [])
  else
    let to_ := jsOrOpt params.to_ "alex@glyfo.com"
    if to_ = "" then (⟨400, .jsonError "Recipient email is required" none⟩, [])
    else
      let emailOptions : EmailOptions4 :=
        ⟨jsOrOpt params.from_ "noreply@send.glyfo.com", to_,
          jsOrOpt params.subject "No Subject",
          jsOrOpt params.text "", jsOrOpt params.html ""⟩
      match provider emailOptions with
      | .threw m => (⟨500, .jsonError m none⟩, [emailOptions])
      | .returned (some e) _ =>
          (⟨400, .jsonError (jsOrStr e.message "Email sending failed") none⟩,
            [emailOptions])
      | .returned none d =>
          (⟨200, .jsonSuccess (d.map ResendData.id)⟩, [emailOptions])

/-! ## Field normalization of an EmailMessage

The normalization pass collected from the validating variant: trim and
falsy-default subject, body, htmlBody and from, trim a single recipient,
trim and drop empty entries of a recipient list. -/

/-- An EmailMessage as received: recipient in single or multi form, the
other fields optional. -/
structure EmailMessage where
  to_ : String ⊕ List String
  subject : Option String
  body : Option String
  htmlBody : Option String
  from_ : Option String
deriving DecidableEq

/-- The field-normalization pass of the validating sendEmail variant. -/
def normalizeEmail (m : EmailMessage) : EmailMessage where
  to_ :=
    match m.to_ with
    | Sum.inl s => Sum.inl (jsTrim s)
    | Sum.inr l => Sum.inr ((l.map jsTrim).filter (fun e => !(e == "")))
  subject := some (jsOrOpt (m.subject.map jsTrim) "")
  body := some (jsOrOpt (m.body.map jsTrim) "")
  htmlBody := m.htmlBody.map jsTrim
  from_ := some (jsOrOpt (m.from_.map jsTrim) "hello@example.com")

/-! ## Image generation and prompt enhancement

Three variants are embedded: the ImageEnhancementWorker (prompt guard,
enhancement without short-circuit, steps clamped to 1..100), the MyWorker
variant with the heuristic short-circuit enhancement and unclamped steps,
and the inpainting MyWorker variant (steps clamped to 10..50, no
enhancement). Each external model call is supplied as a parameter, and each
generateImage returns the recorded language-model call count together with
the diffusion requests actually issued. -/

/-- Output object of the language model: the response field may be absent. -/
structure LMResponse where
  response : Option String
deriving DecidableEq

/-- Request passed to the diffusion model: the prompt is an Option because
the ImageEnhancementWorker variant can forward the undefined result of its
enhancement stage; steps is the value the worker passes. Other fixed request
fields (model id, image, mask, strength, guidance) are not modelled. -/
structure DiffRequest where
  prompt : Option String
  steps : Int
deriving DecidableEq

/-- Output object of the diffusion model: the image field may be absent. -/
structure DiffResponse where
  image : Option String
deriving DecidableEq

/-- A thrown JS error with its message and whether it is a TypeError
(the inpainting variant maps TypeError to status 400). -/
structure JsError where
  message : String
  isTypeError : Bool
deriving DecidableEq

/-- External model calls recorded by a generateImage run. -/
structure GenCalls where
  lm : Nat
  diff : List DiffRequest
deriving DecidableEq

/-- Case-insensitive test for the fixed quality vocabulary, modelling the
regex with alternatives high resolution, detailed, professional, 4K and
the i flag. -/
def hasQualityKeyword (s : String) : Bool :=
  let l := jsToLower s
  containsStr l "high resolution" || containsStr l "detailed" ||
    containsStr l "professional" || containsStr l "4k"

/-- ImageEnhancementWorker.enhancePrompt: always performs one language-model
call; on success returns the trimmed response, falling back to the trimmed
original when the response is absent or trims to empty; the catch branch
only logs, so the function falls off its end and returns undefined (none).
The second component is the number of language-model calls made. -/
def enhancePrompt_p0 (basePrompt : String) (lm : Except String LMResponse) :
    Option String × Nat :=
  let sanitizedPrompt := jsTrim basePrompt
  match lm with
  | .error _ => (none, 1)
  | .ok r =>
      (some (match r.response with
        | none => sanitizedPrompt
        | some resp => if jsTrim resp = "" then sanitizedPrompt else jsTrim resp), 1)

/-- ImageEnhancementWorker.generateImage: AI-binding guard, empty-prompt
guard, enhancement, diffusion call with steps clamped by
Math.min(Math.max(1, steps), 100), then the image/atob/success mapping with
the catch answering 500. -/
def generateImage_p0 (prompt : Option String) (steps : Int) (hasAI : Bool)
    (lm : Except String LMResponse)
    (diff : DiffRequest → Except String DiffResponse) :
    HttpResponse × GenCalls :=
  if hasAI = false then
    (⟨500, .text "AI binding not configured"⟩, ⟨0, []⟩)
  else
    match prompt with
    | none => (⟨400, .jsonError "Prompt cannot be empty" none⟩, ⟨0, []⟩)
    | some p =>
        if p = "" ∨ jsTrim p = "" then
          (⟨400, .jsonError "Prompt cannot be empty" none⟩, ⟨0, []⟩)
        else
          let enhanced := enhancePrompt_p0 p lm
          let req : DiffRequest := ⟨enhanced.1, jsMin (jsMax 1 steps) 100⟩
          match diff req with
          | .error m =>
              (⟨500, .jsonError "Image generation failed" (some m)⟩,
                ⟨enhanced.2, [req]⟩)
          | .ok r =>
              match r.image with
              | none =>
                  (⟨500, .jsonError "Image generation failed"
                      (some "No image data in response")⟩, ⟨enhanced.2, [req]⟩)
              | some img => (⟨200, .image img⟩, ⟨enhanced.2, [req]⟩)

/-- MyWorker.enhanceImagePrompt: short-circuit for prompts whose trim is
shorter than 30 characters with no quality keyword; otherwise one
language-model call whose trimmed response is returned as is (an absent
response field makes the trim call throw, landing in the catch), with the
catch falling back to the trimmed prompt when it is long or already has a
keyword and to the suffix rewrite otherwise. -/
def enhanceImagePrompt_p2 (basePrompt : String) (lm : Except String LMResponse) :
    String × Nat :=
  let fallback :=
    if 100 < (jsTrim basePrompt).length ∨ hasQualityKeyword basePrompt = true then
      jsTrim basePrompt
    else jsTrim basePrompt ++ ", high resolution, detailed, professional quality"
  if (jsTrim basePrompt).length < 30 ∧ hasQualityKeyword basePrompt = false then
    (jsTrim basePrompt ++ ", high resolution, detailed, professional quality", 0)
  else
    match lm with
    | .error _ => (fallback, 1)
    | .ok r =>
        match r.response with
        | none => (fallback, 1)
        | some resp => (jsTrim resp, 1)

/-- MyWorker.generateImage of the enhancement variant: AI-binding guard,
enhancement, diffusion call passing steps unmodified, success cast assumes
the image field, errors answered as plain-text 500. -/
def generateImage_p2 (prompt : String) (steps : Int) (hasAI : Bool)
    (lm : Except String LMResponse)
    (diff : DiffRequest → Except String String) :
    HttpResponse × GenCalls :=
  if hasAI = false then
    (⟨500, .text "AI binding not found in environment"⟩, ⟨0, []⟩)
  else
    let enhanced := enhanceImagePrompt_p2 prompt lm
    let req : DiffRequest := ⟨some enhanced.1, steps⟩
    match diff req with
    | .error m =>
        (⟨500, .text ("Error generating image: " ++ m)⟩, ⟨enhanced.2, [req]⟩)
    | .ok img => (⟨200, .image img⟩, ⟨enhanced.2, [req]⟩)

/-- Inpainting MyWorker.generateImage: falsy prompt guard (absent or empty
string only — a whitespace-only prompt passes), steps clamped by
Math.min(Math.max(steps, 10), 50), AI-binding guard, one diffusion call,
a missing image field raising an Error answered 500, a thrown TypeError
answered 400. -/
def generateImage_p3 (prompt : Option String) (steps : Int) (hasAI : Bool)
    (diff : DiffRequest → Except JsError DiffResponse) :
    HttpResponse × GenCalls :=
  match prompt with
  | none => (⟨400, .text "Prompt is required"⟩, ⟨0, []⟩)
  | some p =>
      if p = "" then (⟨400, .text "Prompt is required"⟩, ⟨0, []⟩)
      else
        let steps2 := jsMin (jsMax steps 10) 50
        if hasAI = false then
          (⟨500, .text "AI binding not found in environment"⟩, ⟨0, []⟩)
        else
          let req : DiffRequest := ⟨some p, steps2⟩
          match diff req with
          | .error e =>
              (⟨if e.isTypeError then 400 else 500,
                .text ("Error generating image: " ++ e.message)⟩, ⟨0, [req]⟩)
          | .ok r =>
              match r.image with
              | none =>
                  (⟨500, .text "Error generating image: No image generated"⟩,
                    ⟨0, [req]⟩)
              | some img => (⟨200, .image img⟩, ⟨0, [req]⟩)

/-! ## Helper lemmas -/

theorem jsTrim_empty : jsTrim "" = "" := rfl

theorem norm_empty_default (o : Option String) :
    jsOrOpt (some (jsTrim (jsOrOpt (o.map jsTrim) ""))) "" = jsOrOpt (o.map jsTrim) "" := by
  cases o with
  | none => simp [jsOrOpt, jsTrim_empty]
  | some s =>
      by_cases h : jsTrim s = ""
      · simp [jsOrOpt, h, jsTrim_empty]
      · simp [jsOrOpt, h, jsTrim_idem]

theorem norm_from_idem (o : Option String) (d : String) (hd : jsTrim d = d)
    (hd2 : d ≠ "") :
    jsOrOpt (some (jsTrim (jsOrOpt (o.map jsTrim) d))) d = jsOrOpt (o.map jsTrim) d := by
  cases o with
  | none => simp [jsOrOpt, hd, hd2]
  | some s =>
      by_cases h : jsTrim s = ""
      · simp [jsOrOpt, h, hd, hd2]
      · simp [jsOrOpt, h, jsTrim_idem]

theorem normTo_idem (l : List String) :
    (((l.map jsTrim).filter (fun e => !(e == ""))).map jsTrim).filter
        (fun e => !(e == ""))
      = (l.map jsTrim).filter (fun e => !(e == "")) := by
  induction l with
  | nil => rfl
  | cons a t ih =>
      by_cases h : jsTrim a = ""
      · simp only [List.map_cons, List.filter_cons, h]
        simpa using ih
      · have h2 : (jsTrim a == "") = false := by simpa using h
        simp only [List.map_cons, List.filter_cons, h2, Bool.not_false, if_true,
          jsTrim_idem]
        simpa [jsTrim_idem, h2] using ih

/-! ## Claim theorems -/

/-- C1: every invocation of the sendEmail tool handler — provider error,
thrown exception, success without data, success with data — returns a
structured envelope whose content is a single text item; no outcome escapes
as an exception. -/
theorem c1_sendEmail_envelope_shape :
    ∀ (to_ subject body : String) (outcome : ProviderOutcome),
      ∃ t : String, sendEmailTool to_ subject body outcome = ⟨[⟨"text", t⟩]⟩ := by
  intro to_ subject body outcome
  cases outcome with
  | threw m => exact ⟨_, rfl⟩
  | returned e d =>
      cases e with
      | some e => exact ⟨_, rfl⟩
      | none =>
          cases d with
          | some d => exact ⟨_, rfl⟩
          | none => exact ⟨_, rfl⟩

/-- C4: a connection attempt with a missing or empty authorization header
is answered 401 by both gate handlers, and the forwarded case — the only
path reaching a Session Actor — always carries a non-empty credential. -/
theorem c4_auth_gate :
    (∀ a : Option String, a = none ∨ a = some "" →
        mountHandler a = .rejected 401 "Unauthorized"
        ∧ sseHandler a = .rejected 401 "Unauthorized")
  ∧ (∀ (a : Option String) (t : String), mountHandler a = .forwarded t →
        a = some t ∧ t ≠ "")
  ∧ (∀ (a : Option String) (t k : String), sseHandler a = .forwarded t k →
        a = some t ∧ t ≠ "" ∧ k = "mcp-agent-instance") := by
  refine ⟨?_, ?_, ?_⟩
  · rintro a (rfl | rfl)
    · exact ⟨rfl, rfl⟩
    · exact ⟨by simp [mountHandler], by simp [sseHandler]⟩
  · intro a t h
    cases a with
    | none => simp [mountHandler] at h
    | some s =>
        by_cases hs : s = ""
        · simp [mountHandler, hs] at h
        · simp only [mountHandler, if_neg hs] at h
          cases h
          exact ⟨rfl, hs⟩
  · intro a t k h
    cases a with
    | none => simp [sseHandler] at h
    | some s =>
        by_cases hs : s = ""
        · simp [sseHandler, hs] at h
        · simp only [sseHandler, if_neg hs] at h
          cases h
          exact ⟨rfl, hs, rfl⟩

/-- C4 witness: concrete evaluations through c4_auth_gate. -/
theorem c4_auth_gate_witness :
    (mountHandler none = .rejected 401 "Unauthorized"
      ∧ sseHandler none = .rejected 401 "Unauthorized")
    ∧ (some "Bearer tok" = some "Bearer tok" ∧ "Bearer tok" ≠ "") := by
  refine ⟨c4_auth_gate.1 none (Or.inl rfl), ?_⟩
  exact c4_auth_gate.2.1 (some "Bearer tok") "Bearer tok" (by decide)

/-- C7: the provider-result mapping distinguishes three outcomes — provider
error (message preserved verbatim as a suffix of the failure text), success
without data (the fixed partial-success text, equal to no success text and
no failure text), success with data (text carrying the id, e.g. msg_123). -/
theorem c7_provider_result_mapping :
    (∀ (to_ subject body : String) (e : ResendError) (d : Option ResendData),
        sendEmailTool to_ subject body (.returned (some e) d)
          = ⟨[⟨"text", "Failed to send email: " ++ e.message⟩]⟩
        ∧ substringOf e.message ("Failed to send email: " ++ e.message))
  ∧ (∀ to_ subject body : String,
        sendEmailTool to_ subject body (.returned none none)
          = ⟨[⟨"text", "Email sent but no ID was returned"⟩]⟩)
  ∧ (∀ d : ResendData, "Email sent successfully! Email ID: " ++ d.id
        ≠ "Email sent but no ID was returned")
  ∧ (∀ e : ResendError, "Failed to send email: " ++ e.message
        ≠ "Email sent but no ID was returned")
  ∧ (∀ (to_ subject body : String) (d : ResendData),
        sendEmailTool to_ subject body (.returned none (some d))
          = ⟨[⟨"text", "Email sent successfully! Email ID: " ++ d.id⟩]⟩)
  ∧ substringOf "msg_123" ("Email sent successfully! Email ID: " ++ "msg_123") := by
  refine ⟨?_, ?_, ?_, ?_, ?_, ?_⟩
  · intro to_ subject body e d
    refine ⟨rfl, ⟨("Failed to send email: ").data, [], ?_⟩⟩
    rw [string_data_append]
    simp
  · intro to_ subject body
    rfl
  · intro d h
    have hl := congrArg (fun s => s.data.length) h
    simp only [string_data_append, List.length_append] at hl
    rw [show ("Email sent successfully! Email ID: ").data.length = 35 from rfl,
      show ("Email sent but no ID was returned").data.length = 33 from rfl] at hl
    omega
  · intro e h
    have hd := congrArg String.data h
    rw [string_data_append,
      show ("Failed to send email: ").data = 'F' :: ("ailed to send email: ").data
        from rfl,
      show ("Email sent but no ID was returned").data
          = 'E' :: ("mail sent but no ID was returned").data from rfl,
      List.cons_append] at hd
    injection hd with h1 h2
    exact absurd h1 (by decide)
  · intro to_ subject body d
    rfl
  · exact ⟨("Email sent successfully! Email ID: ").data, [], by
      rw [string_data_append]; simp⟩

/-- C7 witness: the end-to-end scenario at provider data id msg_123. -/
theorem c7_provider_result_mapping_witness :
    sendEmailTool "a@b.com" "Hi" "test"
        (.returned none (some ⟨"msg_123"⟩))
      = ⟨[⟨"text", "Email sent successfully! Email ID: msg_123"⟩]⟩ := by
  have h := c7_provider_result_mapping.2.2.2.2.1 "a@b.com" "Hi" "test" ⟨"msg_123"⟩
  rw [h]
  decide

/-- C9: the field-normalization pass of an EmailMessage is idempotent —
normalizing a normalized message yields an identical value. -/
theorem c9_normalize_idempotent (m : EmailMessage) :
    normalizeEmail (normalizeEmail m) = normalizeEmail m := by
  cases m with
  | mk to_ subject body htmlBody from_ =>
      simp only [normalizeEmail, EmailMessage.mk.injEq]
      refine ⟨?_, ?_, ?_, ?_, ?_⟩
      · cases to_ with
        | inl s => simp [jsTrim_idem]
        | inr l => simpa using normTo_idem l
      · simpa using norm_empty_default subject
      · simpa using norm_empty_default body
      · cases htmlBody with
        | none => rfl
        | some h => simp [jsTrim_idem]
      · simpa using norm_from_idem from_ "hello@example.com" (by decide) (by decide)

theorem jsOrOpt_ne_empty (o : Option String) (d : String) (hd : d ≠ "") :
    jsOrOpt o d ≠ "" := by
  cases o with
  | none => simpa [jsOrOpt] using hd
  | some s =>
      by_cases h : s = "" <;> simp [jsOrOpt, h, hd]

theorem sendEmail_p4_calls (params : P4Params)
    (p : EmailOptions4 → ProviderOutcome) :
    (sendEmail_p4 params true p).2
      = [⟨jsOrOpt params.from_ "noreply@send.glyfo.com",
          jsOrOpt params.to_ "alex@glyfo.com",
          jsOrOpt params.subject "No Subject",
          jsOrOpt params.text "", jsOrOpt params.html ""⟩] := by
  have hto := jsOrOpt_ne_empty params.to_ "alex@glyfo.com" (by decide)
  simp only [sendEmail_p4]
  rw [if_neg (by decide), if_neg hto]
  cases hp : p ⟨jsOrOpt params.from_ "noreply@send.glyfo.com",
      jsOrOpt params.to_ "alex@glyfo.com",
      jsOrOpt params.subject "No Subject",
      jsOrOpt params.text "", jsOrOpt params.html ""⟩ with
  | threw m => simp [hp]
  | returned e d => cases e <;> simp [hp]

/-- C2 (amended): in the validating sendEmail variant with the provider key
configured, an absent recipient, an empty-string recipient, an empty
recipient array, and a single-string address failing the at-dot format
check each yield a 400 validation failure with zero provider calls. (The
all-empty-after-trim array case is excluded: the code filters it to an
empty list and still invokes the provider — see the counterexample.) -/
theorem c2_recipient_validation :
    (∀ (subject body htmlBody from_ : Option String) (k : Bool)
        (p : EmailOptions → ProviderOutcome),
        sendEmail_p1 ⟨none, subject, body, htmlBody, from_⟩ k p
          = (⟨400, .jsonError "Recipient(s) cannot be empty" none⟩, []))
  ∧ (∀ (subject body htmlBody from_ : Option String) (k : Bool)
        (p : EmailOptions → ProviderOutcome),
        sendEmail_p1 ⟨some (Sum.inl ""), subject, body, htmlBody, from_⟩ k p
          = (⟨400, .jsonError "Recipient(s) cannot be empty" none⟩, []))
  ∧ (∀ (subject body htmlBody from_ : Option String)
        (p : EmailOptions → ProviderOutcome),
        jsOrOpt (subject.map jsTrim) "" ≠ "" →
        sendEmail_p1 ⟨some (Sum.inr []), subject, body, htmlBody, from_⟩ true p
          = (⟨400, .jsonError "Recipient(s) cannot be empty" none⟩, []))
  ∧ (∀ (s : String) (subject body htmlBody from_ : Option String)
        (p : EmailOptions → ProviderOutcome),
        s ≠ "" → jsOrOpt (subject.map jsTrim) "" ≠ "" →
        validEmailFormat (jsTrim s) = false →
        sendEmail_p1 ⟨some (Sum.inl s), subject, body, htmlBody, from_⟩ true p
          = (⟨400, .jsonError "Email sending failed"
              (some "Invalid email format. Email must be in the format: user@domain.com")⟩,
            [])) := by
  refine ⟨?_, ?_, ?_, ?_⟩
  · intro subject body htmlBody from_ k p
    rfl
  · intro subject body htmlBody from_ k p
    simp [sendEmail_p1]
  · intro subject body htmlBody from_ p hsubj
    simp [sendEmail_p1, hsubj]
  · intro s subject body htmlBody from_ p hs hsubj hfmt
    simp [sendEmail_p1, hs, hsubj, hfmt]

/-- C2 witness: a single-string address without an at sign is rejected with
zero provider calls. -/
theorem c2_recipient_validation_witness :
    ("not-an-email" ≠ "" ∧ jsOrOpt ((some "Hi").map jsTrim) "" ≠ ""
      ∧ validEmailFormat (jsTrim "not-an-email") = false)
    ∧ sendEmail_p1
        ⟨some (Sum.inl "not-an-email"), some "Hi", some "test", none, none⟩ true
        (fun _ => .returned none (some ⟨"id_1"⟩))
      = (⟨400, .jsonError "Email sending failed"
          (some "Invalid email format. Email must be in the format: user@domain.com")⟩,
        []) := by
  refine ⟨⟨by decide, by decide, by decide⟩, ?_⟩
  exact c2_recipient_validation.2.2.2 "not-an-email" (some "Hi") (some "test")
    none none _ (by decide) (by decide) (by decide)

/-- C2 counterexample: a recipient array whose entries are all empty after
trimming is not rejected — the filter leaves an empty list, the provider is
invoked with it, and the call reports success, contrary to the claim that
the provider is invoked zero times with an InvalidInput failure. -/
theorem c2_all_empty_recipients_counterexample :
    (sendEmail_p1 ⟨some (Sum.inr [""]), some "Hi", some "test", none, none⟩ true
        (fun _ => .returned none (some ⟨"id_1"⟩))).2
      = [⟨"hello@example.com", Sum.inr [], "Hi", some "test", none⟩]
    ∧ (sendEmail_p1 ⟨some (Sum.inr [""]), some "Hi", some "test", none, none⟩ true
        (fun _ => .returned none (some ⟨"id_1"⟩))).1.status = 200 := by
  exact ⟨rfl, rfl⟩

/-- C8 (amended): the defaulting sendEmail variant substitutes the
placeholder No Subject for a missing or empty subject and still sends the
message; the validating variant instead rejects a missing or
empty-after-trim subject with a 400 failure and zero provider calls. -/
theorem c8_subject_default :
    (∀ (to_ text html from_ subj : Option String)
        (p : EmailOptions4 → ProviderOutcome),
        subj = none ∨ subj = some "" →
        (sendEmail_p4 ⟨to_, subj, text, html, from_⟩ true p).2.map
            EmailOptions4.subject
          = ["No Subject"])
  ∧ (∀ (s : String) (body htmlBody from_ : Option String)
        (p : EmailOptions → ProviderOutcome),
        s ≠ "" →
        sendEmail_p1 ⟨some (Sum.inl s), none, body, htmlBody, from_⟩ true p
          = (⟨400, .jsonError "Subject cannot be empty" none⟩, [])) := by
  constructor
  · intro to_ text html from_ subj p hsub
    rcases hsub with rfl | rfl <;>
      simp [sendEmail_p4_calls, jsOrOpt]
  · intro s body htmlBody from_ p hs
    simp [sendEmail_p1, hs, jsOrOpt]

/-- C8 witness: concrete subject defaulting and concrete rejection. -/
theorem c8_subject_default_witness :
    ((sendEmail_p4 ⟨some "a@b.com", none, some "test", none, none⟩ true
        (fun _ => .returned none (some ⟨"id_2"⟩))).2.map EmailOptions4.subject
      = ["No Subject"])
    ∧ ("a@b.com" ≠ ""
      ∧ sendEmail_p1 ⟨some (Sum.inl "a@b.com"), none, some "test", none, none⟩
          true (fun _ => .returned none (some ⟨"id_2"⟩))
        = (⟨400, .jsonError "Subject cannot be empty" none⟩, [])) := by
  refine ⟨c8_subject_default.1 (some "a@b.com") (some "test") none none none _
      (Or.inl rfl), by decide,
    c8_subject_default.2 "a@b.com" (some "test") none none _ (by decide)⟩

/-- C8 counterexample: in the validating variant a missing subject is by
itself a failure — the message is rejected with 400 and never sent, contrary
to the claim that a placeholder is substituted and the message still sent. -/
theorem c8_missing_subject_counterexample :
    sendEmail_p1
        ⟨some (Sum.inl "ops@example.org"), none, some "body text", none, none⟩
        true (fun _ => .returned none (some ⟨"id_3"⟩))
      = (⟨400, .jsonError "Subject cannot be empty" none⟩, []) := by
  rfl

/-- C6: evaluating the ImageEnhancementWorker enhancement stage at a prompt
whose language-model call throws — the catch only logs, the function falls
off its end, and undefined (none) is returned after one model call, in
contradiction with the declared string return contract. -/
theorem c6_enhance_returns_undefined :
    enhancePrompt_p0 "a castle" (.error "model unavailable") = (none, 1) := by
  rfl

/-- C3 (amended): the ImageEnhancementWorker variant passes the diffusion
model the value Math.min(Math.max(1, steps), 100) — below the range behaves
as 1, above as 100, and the passed value always lies in 1..100; the
enhancement MyWorker variant passes the raw steps value unclamped. -/
theorem c3_steps_clamping :
    (∀ (p : String) (s : Int) (lm : Except String LMResponse)
        (diff : DiffRequest → Except String DiffResponse),
        p ≠ "" → jsTrim p ≠ "" →
        (generateImage_p0 (some p) s true lm diff).2.diff
          = [⟨(enhancePrompt_p0 p lm).1, jsMin (jsMax 1 s) 100⟩])
  ∧ (∀ s : Int, (s ≤ 1 → jsMin (jsMax 1 s) 100 = 1)
        ∧ (100 ≤ s → jsMin (jsMax 1 s) 100 = 100)
        ∧ 1 ≤ jsMin (jsMax 1 s) 100 ∧ jsMin (jsMax 1 s) 100 ≤ 100)
  ∧ (∀ (p : String) (s : Int) (lm : Except String LMResponse)
        (diff : DiffRequest → Except String String),
        (generateImage_p2 p s true lm diff).2.diff
          = [⟨some (enhanceImagePrompt_p2 p lm).1, s⟩]) := by
  refine ⟨?_, ?_, ?_⟩
  · intro p s lm diff hp htrim
    simp only [generateImage_p0]
    rw [if_neg (by decide), if_neg (by simp [hp, htrim])]
    cases hd : diff ⟨(enhancePrompt_p0 p lm).1, jsMin (jsMax 1 s) 100⟩ with
    | error m => simp [hd]
    | ok r =>
        cases hr : r.image with
        | none => simp [hd, hr]
        | some img => simp [hd, hr]
  · intro s
    simp only [jsMin, jsMax]
    refine ⟨fun h => ?_, fun h => ?_, ?_, ?_⟩ <;> split_ifs <;> omega
  · intro p s lm diff
    simp only [generateImage_p2]
    rw [if_neg (by decide)]
    cases hd : diff ⟨some (enhanceImagePrompt_p2 p lm).1, s⟩ with
    | error m => simp [hd]
    | ok img => simp [hd]

/-- C3 witness: steps 500 is clamped to 100 by the clamping variant. -/
theorem c3_steps_clamping_witness :
    ("a castle" ≠ "" ∧ jsTrim "a castle" ≠ "")
    ∧ (generateImage_p0 (some "a castle") 500 true (.ok ⟨some "enhanced"⟩)
        (fun _ => .ok ⟨some "img"⟩)).2.diff
      = [⟨(enhancePrompt_p0 "a castle" (.ok ⟨some "enhanced"⟩)).1,
          jsMin (jsMax 1 500) 100⟩]
    ∧ jsMin (jsMax 1 500) 100 = 100 := by
  refine ⟨⟨by decide, by decide⟩,
    c3_steps_clamping.1 "a castle" 500 _ _ (by decide) (by decide), ?_⟩
  exact (c3_steps_clamping.2.1 500).2.1 (by decide)

/-- C3 counterexample: the enhancement MyWorker variant passes steps 500
through to the diffusion capability unchanged instead of the maximum bound
100, contrary to the claim that out-of-range steps are always clamped. -/
theorem c3_unclamped_steps_counterexample :
    ((generateImage_p2 "a castle" 500 true (.ok ⟨some "enhanced"⟩)
        (fun _ => .ok "img")).2.diff.map DiffRequest.steps = [(500 : Int)])
    ∧ (500 : Int) ≠ 100 := by
  exact ⟨rfl, by decide⟩

/-- C5 (amended): in the enhancement MyWorker variant, a prompt whose trim
is shorter than 30 characters with no quality keyword gets the deterministic
suffix rewrite with zero language-model calls — in particular input cat
yields the fixed enhanced string; the ImageEnhancementWorker variant has no
short-circuit and performs one language-model call for every prompt. -/
theorem c5_short_circuit :
    (∀ (p : String) (lm : Except String LMResponse),
        (jsTrim p).length < 30 → hasQualityKeyword p = false →
        enhanceImagePrompt_p2 p lm
          = (jsTrim p ++ ", high resolution, detailed, professional quality", 0))
  ∧ (∀ lm : Except String LMResponse,
        enhanceImagePrompt_p2 "cat" lm
          = ("cat, high resolution, detailed, professional quality", 0))
  ∧ (∀ (p : String) (lm : Except String LMResponse),
        (enhancePrompt_p0 p lm).2 = 1) := by
  refine ⟨?_, ?_, ?_⟩
  · intro p lm h1 h2
    simp only [enhanceImagePrompt_p2]
    rw [if_pos ⟨h1, h2⟩]
  · intro lm
    have h1 : (jsTrim "cat").length < 30 := by decide
    have h2 : hasQualityKeyword "cat" = false := by decide
    simp only [enhanceImagePrompt_p2]
    rw [if_pos ⟨h1, h2⟩]
    decide
  · intro p lm
    cases lm with
    | error e => rfl
    | ok r => rfl

/-- C5 witness: the short-circuit at prompt cat through c5_short_circuit. -/
theorem c5_short_circuit_witness :
    ((jsTrim "cat").length < 30 ∧ hasQualityKeyword "cat" = false)
    ∧ enhanceImagePrompt_p2 "cat" (.ok ⟨some "ignored"⟩)
      = ("cat, high resolution, detailed, professional quality", 0) := by
  refine ⟨⟨by decide, by decide⟩, ?_⟩
  have h := c5_short_circuit.1 "cat" (.ok ⟨some "ignored"⟩) (by decide) (by decide)
  rw [h]
  decide

/-- C5 counterexample: the ImageEnhancementWorker enhancement stage invokes
the language model once on prompt cat and does not return the suffix
rewrite, contrary to the claim of zero model calls with the fixed result. -/
theorem c5_no_short_circuit_counterexample :
    (enhancePrompt_p0 "cat" (.ok ⟨some "ignored"⟩)).2 = 1
    ∧ (enhancePrompt_p0 "cat" (.ok ⟨some "ignored"⟩)).1
      ≠ some "cat, high resolution, detailed, professional quality" := by
  exact ⟨rfl, by decide⟩

/-- C10 (amended): the ImageEnhancementWorker variant answers 400 with zero
model calls for an absent, empty or whitespace-only prompt; the inpainting
MyWorker variant rejects only an absent or empty-string prompt — a
whitespace-only prompt passes its guard (see the counterexample). -/
theorem c10_empty_prompt :
    (∀ (s : Int) (lm : Except String LMResponse)
        (diff : DiffRequest → Except String DiffResponse),
        generateImage_p0 none s true lm diff
          = (⟨400, .jsonError "Prompt cannot be empty" none⟩, ⟨0, []⟩))
  ∧ (∀ (s : Int) (lm : Except String LMResponse)
        (diff : DiffRequest → Except String DiffResponse),
        generateImage_p0 (some "") s true lm diff
          = (⟨400, .jsonError "Prompt cannot be empty" none⟩, ⟨0, []⟩))
  ∧ (∀ (p : String) (s : Int) (lm : Except String LMResponse)
        (diff : DiffRequest → Except String DiffResponse),
        jsTrim p = "" →
        generateImage_p0 (some p) s true lm diff
          = (⟨400, .jsonError "Prompt cannot be empty" none⟩, ⟨0, []⟩))
  ∧ (∀ (s : Int) (diff : DiffRequest → Except JsError DiffResponse),
        generateImage_p3 none s true diff
          = (⟨400, .text "Prompt is required"⟩, ⟨0, []⟩))
  ∧ (∀ (s : Int) (diff : DiffRequest → Except JsError DiffResponse),
        generateImage_p3 (some "") s true diff
          = (⟨400, .text "Prompt is required"⟩, ⟨0, []⟩)) := by
  refine ⟨fun s lm diff => rfl, fun s lm diff => rfl, ?_,
    fun s diff => rfl, fun s diff => rfl⟩
  intro p s lm diff h
  simp [generateImage_p0, h]

/-- C10 witness: a whitespace-only prompt is rejected with zero calls by
the ImageEnhancementWorker variant, through c10_empty_prompt. -/
theorem c10_empty_prompt_witness :
    jsTrim " " = ""
    ∧ generateImage_p0 (some " ") 30 true (.ok ⟨some "x"⟩)
        (fun _ => .ok ⟨some "img"⟩)
      = (⟨400, .jsonError "Prompt cannot be empty" none⟩, ⟨0, []⟩) := by
  exact ⟨by decide, c10_empty_prompt.2.2.1 " " 30 _ _ (by decide)⟩

/-- C10 counterexample: the inpainting variant passes a whitespace-only
prompt through its falsy guard and invokes the diffusion model with it,
answering 200, contrary to the claim of a 400 with zero model calls. -/
theorem c10_whitespace_prompt_counterexample :
    generateImage_p3 (some " ") 30 true (fun _ => .ok ⟨some "img"⟩)
      = (⟨200, .image "img"⟩, ⟨0, [⟨some " ", 30⟩]⟩) := by
  rfl

end S2P
